import Mathlib

/-!
# Spirosch: the ES3 renderer of the 24-hour spiral watch face

A shallow embedding of `app/src/main/cpp/RendererES3.cpp`.

* Floats are read exactly, as elements of a field `K` (the rationals, the reals).
* `int` values are integers; a signed product that leaves the 32-bit range and a read
  outside the `minutes` array are undefined behaviour in C++ and make the model return `none`.
* The stack array `Point spiral[SECONDS_PER_DAY]` is an array of `SECONDS_PER_DAY` slots;
  a slot never written holds `none`.
* What lies outside the file (the EGL context query, `createProgram`, the names the GL driver
  hands out) is an input of the model, and the GL calls a method issues form its trace.
-/

namespace Spirosch

/-! ## Constants and types declared in `gles3jni.h` -/

/-- Modelled from the spec: the constant `SECONDS_PER_DAY` of `gles3jni.h`, which is not part of
the sources at hand; the spec gives the table 86400 entries, one per second of a day. -/
def SECONDS_PER_DAY : Int := 86400

/-- Modelled from the spec: the constant `SECONDS_PER_HOUR` of `gles3jni.h`; the spec has the
angle make one full turn every 3600 seconds. -/
def SECONDS_PER_HOUR : Int := 3600

/-- Modelled from the spec: the constant `HOURS_PER_DAY` of `gles3jni.h`; the spec gives the
thickness constant as 0.75/24. -/
def HOURS_PER_DAY : Int := 24

/-- Modelled from the spec: the struct `Point` of `gles3jni.h`, one spiral sample made of the
three floats radius, angle and index. -/
structure Point (K : Type) where
  radius : K
  angle : K
  index : K

/-- Size in bytes of a `float`. -/
def sizeofFloat : Nat := 4

/-- Size in bytes of a `Point`, three floats without padding. -/
def sizeofPoint : Nat := 3 * sizeofFloat

/-- Largest value of a 32-bit `int`. -/
def INT_MAX : Int := 2147483647

/-- Smallest value of a 32-bit `int`. -/
def INT_MIN : Int := -2147483648

/-- Product of two `int` values; `none` when it leaves the 32-bit signed range. -/
def mulInt (a b : Int) : Option Int :=
  if INT_MIN ≤ a * b ∧ a * b ≤ INT_MAX then some (a * b) else none

/-! ## The spiral table of `RendererES3::init` -/

/-- The local array `minutes` of `init`. -/
def minutes : List Int :=
  [510, 567, 574, 631, 638, 695, 702, 761, 809, 866, 873, 930, SECONDS_PER_DAY]

/-- The read `minutes[i]`; `none` outside the array. -/
def readMinutes (i : Int) : Option Int :=
  if 0 ≤ i then minutes[i.toNat]? else none

/-- The local `thickness` of `init`, `0.75/HOURS_PER_DAY`. -/
def thickness (K : Type) [Field K] : K := (3 / 4 : K) / (HOURS_PER_DAY : K)

/-- The value `theta` computed for `s`:
`HALF_PI - float(s) * TWO_PI / float(SECONDS_PER_HOUR)`. The constants `HALF_PI` and `TWO_PI`
of `gles3jni.h` are parameters. -/
def thetaOf {K : Type} [Field K] (HALF_PI TWO_PI : K) (s : Int) : K :=
  HALF_PI - (s : K) * TWO_PI / (SECONDS_PER_HOUR : K)

/-- The value `radius` computed for `s`: `float(s) / float(SECONDS_PER_DAY)`, plus `thickness`
when `s % 2` is not zero. -/
def radiusOf (K : Type) [Field K] (s : Int) : K :=
  if s.tmod 2 ≠ 0 then (s : K) / (SECONDS_PER_DAY : K) + thickness K
  else (s : K) / (SECONDS_PER_DAY : K)

/-- The variables that live across iterations of the loop of `init`. -/
structure SpiralLoop (K : Type) where
  minute : Int
  minute_index : Int
  spiral : Array (Option (Point K))

/-- The state on entry to the loop: `minute = minutes[0]`, `minute_index = 0`, and the array
`Point spiral[SECONDS_PER_DAY]` with nothing written to it yet. -/
def SpiralLoop.start (K : Type) : Option (SpiralLoop K) :=
  (readMinutes 0).map fun m =>
    { minute := m, minute_index := 0, spiral := mkArray SECONDS_PER_DAY.toNat none }

/-- The assignment `spiral[s] = p`; `none` when `s` is outside the array. -/
def writeSpiral {K : Type} (spiral : Array (Option (Point K))) (s : Int) (p : Point K) :
    Option (Array (Option (Point K))) :=
  if 0 ≤ s ∧ s.toNat < spiral.size then some (spiral.setD s.toNat (some p)) else none

/-- One iteration of the loop of `init`, for the loop variable `s`. -/
def spiralStep {K : Type} [Field K] (HALF_PI TWO_PI : K) (st : SpiralLoop K) (s : Int) :
    Option (SpiralLoop K) :=
  let theta := thetaOf HALF_PI TWO_PI s
  let radius := radiusOf K s
  match mulInt st.minute 60 with
  | none => none
  | some bound =>
    if s > bound then
      let minute_index := st.minute_index + 1
      match readMinutes minute_index with
      | none => none
      | some minute =>
        (writeSpiral st.spiral s { radius := radius, angle := theta, index := (minute_index : K) }).map
          fun sp => { minute := minute, minute_index := minute_index, spiral := sp }
    else
      (writeSpiral st.spiral s
          { radius := radius, angle := theta, index := (st.minute_index : K) }).map
        fun sp => { st with spiral := sp }

/-- The loop `for (int s = 0; s < n; s++)` of `init`, run from the entry state. -/
def spiralLoop {K : Type} [Field K] (HALF_PI TWO_PI : K) (n : Nat) : Option (SpiralLoop K) :=
  (SpiralLoop.start K).bind fun st0 =>
    (List.range n).foldlM (fun st (s : Nat) => spiralStep HALF_PI TWO_PI st (s : Int)) st0

/-- The array `spiral` when the loop of `init` is left, `s` having run over
`0 .. SECONDS_PER_DAY - 1`. -/
def spiralTable {K : Type} [Field K] (HALF_PI TWO_PI : K) : Option (Array (Option (Point K))) :=
  (spiralLoop HALF_PI TWO_PI SECONDS_PER_DAY.toNat).map SpiralLoop.spiral

/-- The entry `spiral[s]` of the finished table. -/
def spiralEntry {K : Type} [Field K] (HALF_PI TWO_PI : K) (s : Nat) : Option (Point K) :=
  (spiralTable HALF_PI TWO_PI).bind fun t => t[s]?.join

/-! ## The renderer and its GL calls -/

/-- A GL object name. -/
abbrev GLuint := Nat

/-- An EGL context handle. -/
abbrev EGLContext := Nat

/-- The GL enumerants the file uses. -/
inductive GLenum where
  | GL_ARRAY_BUFFER
  | GL_STATIC_DRAW
  | GL_FLOAT
  | GL_TRIANGLE_STRIP
  deriving DecidableEq

/-- The access bit `GL_MAP_WRITE_BIT`. -/
def GL_MAP_WRITE_BIT : Nat := 2

/-- The access bit `GL_MAP_INVALIDATE_BUFFER_BIT`. -/
def GL_MAP_INVALIDATE_BUFFER_BIT : Nat := 8

/-- Attribute location of `radius`. -/
def RADIUS_ATTRIB : Nat := 0

/-- Attribute location of `angle`. -/
def ANGLE_ATTRIB : Nat := 1

/-- Attribute location of `index`. -/
def INDEX_ATTRIB : Nat := 2

/-- Attribute location of the offset. -/
def OFFSET_ATTRIB : Nat := 3

/-- Last member of `enum {VB_INSTANCE, VB_SCALEROT, VB_OFFSET, VB_COUNT}`: the number of
vertex buffers. -/
abbrev VB_COUNT : Nat := 3

/-- Slot of the static spiral table in `mVB`. -/
def VB_INSTANCE : Fin VB_COUNT := 0

/-- Slot of the transform buffer in `mVB`. -/
def VB_SCALEROT : Fin VB_COUNT := 1

/-- Slot of the offset buffer in `mVB`. -/
def VB_OFFSET : Fin VB_COUNT := 2

/-- The GL calls issued by the file, with their arguments. Names that GL writes back
(`glGenBuffers`, `glGenVertexArrays`) and names read through a pointer (`glDelete*`) are listed
in the call. -/
inductive GLCall (K : Type) where
  | glGenBuffers (n : Nat) (buffers : List GLuint)
  | glBindBuffer (target : GLenum) (buffer : GLuint)
  | glBufferData (target : GLenum) (size : Nat) (data : Option (Array (Option (Point K))))
      (usage : GLenum)
  | glGenVertexArrays (n : Nat) (arrays : List GLuint)
  | glBindVertexArray (array : GLuint)
  | glVertexAttribPointer (index : Nat) (size : Nat) (type : GLenum) (normalized : Bool)
      (stride : Nat) (pointer : Nat)
  | glEnableVertexAttribArray (index : Nat)
  | glVertexAttribDivisor (index : Nat) (divisor : Nat)
  | glDeleteVertexArrays (n : Nat) (arrays : List GLuint)
  | glDeleteBuffers (n : Nat) (buffers : List GLuint)
  | glDeleteProgram (program : GLuint)
  | glMapBufferRange (target : GLenum) (offset : Nat) (length : Nat) (access : Nat)
  | glUnmapBuffer (target : GLenum)
  | glUseProgram (program : GLuint)
  | glDrawArraysInstanced (mode : GLenum) (first : Int) (count : Int) (instancecount : Int)

/-- The data members of `RendererES3`. -/
structure RendererES3 where
  mEglContext : EGLContext
  mProgram : GLuint
  mVB : Fin VB_COUNT → GLuint
  mVBState : GLuint

/-- What the platform hands back during `init`: the result of `createProgram` (0 when the
shaders fail to compile or link), the names written by `glGenBuffers(VB_COUNT, mVB)` and the
name written by `glGenVertexArrays(1, &mVBState)`. -/
structure GLDriver where
  program : GLuint
  buffers : Fin VB_COUNT → GLuint
  vertexArray : GLuint

/-- The constructor `RendererES3::RendererES3()`; `current` is what `eglGetCurrentContext()`
returns at that moment. -/
def RendererES3.new (current : EGLContext) : RendererES3 :=
  { mEglContext := current, mProgram := 0, mVBState := 0, mVB := fun _ => 0 }

/-- The GL calls of `init` after the spiral table is computed, for the renderer `r` whose
`mVB` and `mVBState` hold the generated names. -/
def initCalls {K : Type} (r : RendererES3) (spiral : Array (Option (Point K))) :
    List (GLCall K) :=
  [ .glGenBuffers VB_COUNT (List.ofFn r.mVB),
    .glBindBuffer .GL_ARRAY_BUFFER (r.mVB VB_INSTANCE),
    .glBufferData .GL_ARRAY_BUFFER (SECONDS_PER_DAY.toNat * sizeofPoint) (some spiral)
      .GL_STATIC_DRAW,
    .glBindBuffer .GL_ARRAY_BUFFER (r.mVB VB_OFFSET),
    .glBufferData .GL_ARRAY_BUFFER sizeofFloat none .GL_STATIC_DRAW,
    .glGenVertexArrays 1 [r.mVBState],
    .glBindVertexArray r.mVBState,
    .glBindBuffer .GL_ARRAY_BUFFER (r.mVB VB_INSTANCE),
    .glVertexAttribPointer RADIUS_ATTRIB 1 .GL_FLOAT false sizeofPoint 0,
    .glVertexAttribPointer ANGLE_ATTRIB 1 .GL_FLOAT false sizeofPoint sizeofFloat,
    .glVertexAttribPointer INDEX_ATTRIB 1 .GL_FLOAT false sizeofPoint (2 * sizeofFloat),
    .glEnableVertexAttribArray RADIUS_ATTRIB,
    .glEnableVertexAttribArray ANGLE_ATTRIB,
    .glEnableVertexAttribArray INDEX_ATTRIB,
    .glBindBuffer .GL_ARRAY_BUFFER (r.mVB VB_OFFSET),
    .glVertexAttribPointer OFFSET_ATTRIB 1 .GL_FLOAT false sizeofFloat 0,
    .glEnableVertexAttribArray OFFSET_ATTRIB,
    .glVertexAttribDivisor OFFSET_ATTRIB 1 ]

/-- The method `RendererES3::init()`: its return value, the renderer afterwards and the GL calls
it issued itself (those inside `createProgram` are not part of the file). -/
def RendererES3.init {K : Type} [Field K] (HALF_PI TWO_PI : K) (gl : GLDriver)
    (r : RendererES3) : Option (Bool × RendererES3 × List (GLCall K)) :=
  let r1 := { r with mProgram := gl.program }
  if r1.mProgram = 0 then some (false, r1, [])
  else
    (spiralTable HALF_PI TWO_PI).map fun spiral =>
      let r2 := { r1 with mVB := gl.buffers, mVBState := gl.vertexArray }
      (true, r2, initCalls r2 spiral)

/-- The destructor `RendererES3::~RendererES3()`; `current` is what `eglGetCurrentContext()`
returns at that moment. -/
def RendererES3.destroy (K : Type) (current : EGLContext) (r : RendererES3) : List (GLCall K) :=
  if current ≠ r.mEglContext then []
  else
    [ .glDeleteVertexArrays 1 [r.mVBState],
      .glDeleteBuffers VB_COUNT (List.ofFn r.mVB),
      .glDeleteProgram r.mProgram ]

/-- The function `createES3Renderer()`: the renderer returned (`none` for `NULL`) and the GL
calls issued. `atNew` and `atDelete` are the EGL contexts current when the renderer is
constructed and when it is deleted. -/
def createES3Renderer {K : Type} [Field K] (HALF_PI TWO_PI : K) (atNew atDelete : EGLContext)
    (gl : GLDriver) : Option (Option RendererES3 × List (GLCall K)) :=
  ((RendererES3.new atNew).init HALF_PI TWO_PI gl).map fun (ok, renderer, calls) =>
    if !ok then (none, calls ++ renderer.destroy K atDelete)
    else (some renderer, calls)

/-- The method `RendererES3::mapOffsetBuf()`, as the GL calls it issues. -/
def RendererES3.mapOffsetBuf (K : Type) (r : RendererES3) : List (GLCall K) :=
  [ .glBindBuffer .GL_ARRAY_BUFFER (r.mVB VB_OFFSET),
    .glMapBufferRange .GL_ARRAY_BUFFER 0 sizeofFloat
      (GL_MAP_WRITE_BIT ||| GL_MAP_INVALIDATE_BUFFER_BIT) ]

/-- The method `RendererES3::unmapOffsetBuf()`. -/
def RendererES3.unmapOffsetBuf (K : Type) (_r : RendererES3) : List (GLCall K) :=
  [ .glUnmapBuffer .GL_ARRAY_BUFFER ]

/-- The method `RendererES3::mapTransformBuf()`, as the GL calls it issues. -/
def RendererES3.mapTransformBuf (K : Type) (r : RendererES3) : List (GLCall K) :=
  [ .glBindBuffer .GL_ARRAY_BUFFER (r.mVB VB_SCALEROT),
    .glMapBufferRange .GL_ARRAY_BUFFER 0 (4 * sizeofFloat)
      (GL_MAP_WRITE_BIT ||| GL_MAP_INVALIDATE_BUFFER_BIT) ]

/-- The method `RendererES3::unmapTransformBuf()`. -/
def RendererES3.unmapTransformBuf (K : Type) (_r : RendererES3) : List (GLCall K) :=
  [ .glUnmapBuffer .GL_ARRAY_BUFFER ]

/-- The method `RendererES3::draw(numInstances)`, as the GL calls it issues. -/
def RendererES3.draw (K : Type) (r : RendererES3) (_numInstances : Nat) : List (GLCall K) :=
  [ .glUseProgram r.mProgram,
    .glBindVertexArray r.mVBState,
    .glDrawArraysInstanced .GL_TRIANGLE_STRIP 0 SECONDS_PER_DAY 1 ]

/-! ## Buffer storage on the GL side

OpenGL ES 3.0 is outside the repository. The part of it that decides whether a mapped range
lies inside a buffer is this: a generated name has no data store until `glBufferData` gives the
buffer bound to the target one of the requested size, and `glMapBufferRange` maps bytes
`offset .. offset + length` of the buffer bound to the target. -/

/-- The GL state that decides the validity of a mapping: the buffer bound to
`GL_ARRAY_BUFFER` and the size in bytes of every buffer's data store. -/
structure GLBuffers where
  arrayBuffer : GLuint
  storeSize : GLuint → Nat

/-- A context in which no buffer has storage. -/
def GLBuffers.empty : GLBuffers := { arrayBuffer := 0, storeSize := fun _ => 0 }

/-- Effect of one GL call on the buffer bindings and data stores. -/
def GLBuffers.apply {K : Type} (g : GLBuffers) : GLCall K → GLBuffers
  | .glGenBuffers _ names =>
    { g with storeSize := fun b => if b ∈ names then 0 else g.storeSize b }
  | .glBindBuffer .GL_ARRAY_BUFFER b => { g with arrayBuffer := b }
  | .glBufferData .GL_ARRAY_BUFFER size _ _ =>
    { g with storeSize := fun b => if b = g.arrayBuffer then size else g.storeSize b }
  | _ => g

/-- Effect of a sequence of GL calls. -/
def GLBuffers.run {K : Type} (g : GLBuffers) (calls : List (GLCall K)) : GLBuffers :=
  calls.foldl GLBuffers.apply g

/-- Whether a call, when it is a `glMapBufferRange` on `GL_ARRAY_BUFFER`, maps a range that
lies within the data store of the buffer bound there; `g` is the state the call is issued in. -/
def GLBuffers.mapWithinStore {K : Type} (g : GLBuffers) : GLCall K → Bool
  | .glMapBufferRange .GL_ARRAY_BUFFER offset length _ =>
    decide (offset + length ≤ g.storeSize g.arrayBuffer)
  | _ => true

/-- Whether every mapping in a sequence of GL calls, issued from state `g`, lies within the
data store of the buffer it maps. -/
def GLBuffers.mapsWithinStore {K : Type} : GLBuffers → List (GLCall K) → Bool
  | _, [] => true
  | g, c :: cs => g.mapWithinStore c && (g.apply c).mapsWithinStore cs

/-! ## Quantities the claims are about -/

/-- The index field of entry `s` of the spiral table. -/
def spiralIndex {K : Type} [Field K] (HALF_PI TWO_PI : K) (s : Nat) : Option K :=
  (spiralEntry HALF_PI TWO_PI s).map Point.index

/-- The radius field of entry `s` of the spiral table. -/
def spiralRadius {K : Type} [Field K] (HALF_PI TWO_PI : K) (s : Nat) : Option K :=
  (spiralEntry HALF_PI TWO_PI s).map Point.radius

/-- The angle field of entry `s` of the spiral table. -/
def spiralAngle {K : Type} [Field K] (HALF_PI TWO_PI : K) (s : Nat) : Option K :=
  (spiralEntry HALF_PI TWO_PI s).map Point.angle

/-- The index field of slot `s` of a table `t`. -/
def tableIndex {K : Type} (t : Array (Option (Point K))) (s : Nat) : Option K :=
  t[s]?.join.map Point.index

/-- The positions `s` of the table, `0 < s < SECONDS_PER_DAY`, where the index differs from
the index at `s - 1`. -/
def indexChanges {K : Type} [Field K] [DecidableEq K] (HALF_PI TWO_PI : K) : Finset Nat :=
  ((spiralTable HALF_PI TWO_PI).map fun t =>
    (Finset.range SECONDS_PER_DAY.toNat).filter fun s =>
      0 < s ∧ tableIndex t s ≠ tableIndex t (s - 1)).getD ∅

/-- The value of the `float` nearest to pi/2, as a rational. -/
def floatHalfPi : ℚ := 13176795 / 8388608

/-- The value of the `float` nearest to 2 pi, as a rational. -/
def floatTwoPi : ℚ := 13176795 / 2097152

/-! ## Closed forms used in the proofs -/

/-- Number of the non-sentinel entries `m` of `minutes` with `s > m * 60`. -/
def segmentCount (s : Int) : Nat :=
  minutes.dropLast.countP fun m => decide (s > m * 60)

/-- The arc of the day that second `s` falls in, by comparison with the twelve boundaries. -/
@[irreducible]
def arcOf (s : Int) : Nat :=
  if s ≤ 30600 then 0 else if s ≤ 34020 then 1 else if s ≤ 34440 then 2
  else if s ≤ 37860 then 3 else if s ≤ 38280 then 4 else if s ≤ 41700 then 5
  else if s ≤ 42120 then 6 else if s ≤ 45660 then 7 else if s ≤ 48540 then 8
  else if s ≤ 51960 then 9 else if s ≤ 52380 then 10 else if s ≤ 55800 then 11 else 12

/-- The point the loop stores for second `s`, in closed form. -/
def pointOf {K : Type} [Field K] (HALF_PI TWO_PI : K) (s : Nat) : Point K :=
  { radius := radiusOf K s, angle := thetaOf HALF_PI TWO_PI s, index := (arcOf s : K) }

/-- The entry of `minutes` the loop holds in `minute` while its counter is `k`. -/
@[irreducible]
def minuteOf (k : Nat) : Int := minutes.getD k 0

/-- The array `spiral` after the first `n` iterations of the loop, in closed form: `size` slots,
the first `n` of them written. -/
@[irreducible]
def tableOf {K : Type} [Field K] (HALF_PI TWO_PI : K) (size n : Nat) : Array (Option (Point K)) :=
  Array.ofFn fun i : Fin size => if i.val < n then some (pointOf HALF_PI TWO_PI i.val) else none

/-- The state of the loop of `init` after its first `n` iterations, in closed form. -/
def loopStateOf {K : Type} [Field K] (HALF_PI TWO_PI : K) (n : Nat) : SpiralLoop K :=
  { minute := minuteOf (arcOf ((n : Int) - 1))
    minute_index := (arcOf ((n : Int) - 1) : Int)
    spiral := tableOf HALF_PI TWO_PI SECONDS_PER_DAY.toNat n }

/-! ## The loop invariant -/

theorem arc_cases (s : Int) : s ≤ 30600 ∨ (30600 < s ∧ s ≤ 34020) ∨ (34020 < s ∧ s ≤ 34440)
    ∨ (34440 < s ∧ s ≤ 37860) ∨ (37860 < s ∧ s ≤ 38280) ∨ (38280 < s ∧ s ≤ 41700)
    ∨ (41700 < s ∧ s ≤ 42120) ∨ (42120 < s ∧ s ≤ 45660) ∨ (45660 < s ∧ s ≤ 48540)
    ∨ (48540 < s ∧ s ≤ 51960) ∨ (51960 < s ∧ s ≤ 52380) ∨ (52380 < s ∧ s ≤ 55800)
    ∨ 55800 < s := by omega

theorem segmentCount_eq_arcOf (s : Int) : segmentCount s = arcOf s := by
  simp only [segmentCount, minutes, List.dropLast, List.countP_cons, List.countP_nil, gt_iff_lt,
    decide_eq_true_eq, arcOf]
  rcases arc_cases s with h | h | h | h | h | h | h | h | h | h | h | h | h <;>
    simp (disch := omega) only [if_pos, if_neg]

theorem arcOf_cases (s : Int) : (s ≤ 30600 ∧ arcOf s = 0) ∨ (30600 < s ∧ s ≤ 34020 ∧ arcOf s = 1)
    ∨ (34020 < s ∧ s ≤ 34440 ∧ arcOf s = 2) ∨ (34440 < s ∧ s ≤ 37860 ∧ arcOf s = 3)
    ∨ (37860 < s ∧ s ≤ 38280 ∧ arcOf s = 4) ∨ (38280 < s ∧ s ≤ 41700 ∧ arcOf s = 5)
    ∨ (41700 < s ∧ s ≤ 42120 ∧ arcOf s = 6) ∨ (42120 < s ∧ s ≤ 45660 ∧ arcOf s = 7)
    ∨ (45660 < s ∧ s ≤ 48540 ∧ arcOf s = 8) ∨ (48540 < s ∧ s ≤ 51960 ∧ arcOf s = 9)
    ∨ (51960 < s ∧ s ≤ 52380 ∧ arcOf s = 10) ∨ (52380 < s ∧ s ≤ 55800 ∧ arcOf s = 11)
    ∨ (55800 < s ∧ arcOf s = 12) := by
  simp only [arcOf]
  rcases arc_cases s with h | h | h | h | h | h | h | h | h | h | h | h | h <;>
    simp (disch := omega) only [if_pos, if_neg] <;> simp <;> omega

theorem arcOf_le (s : Int) : arcOf s ≤ 12 := by
  have h := arcOf_cases s
  omega

theorem readMinutes_arcOf (s : Int) : readMinutes (arcOf s : Int) = some (minuteOf (arcOf s)) := by
  have h := arcOf_le s
  have hlen : arcOf s < minutes.length := by simp [minutes]; omega
  simp [readMinutes, minuteOf, List.getD_eq_getElem?_getD, List.getElem?_eq_getElem hlen]

theorem minuteOf_arcOf_bounds (s : Int) :
    0 ≤ minuteOf (arcOf s) * 60 ∧ minuteOf (arcOf s) * 60 ≤ 5184000 := by
  simp only [arcOf]
  rcases arc_cases s with h | h | h | h | h | h | h | h | h | h | h | h | h <;>
    simp (disch := omega) only [if_pos, if_neg] <;>
    simp [minuteOf, minutes, SECONDS_PER_DAY]

theorem arcOf_step (s : Int) :
    (s > minuteOf (arcOf (s - 1)) * 60 → s < 86400 → arcOf s = arcOf (s - 1) + 1) ∧
    (¬ s > minuteOf (arcOf (s - 1)) * 60 → arcOf s = arcOf (s - 1)) := by
  simp only [arcOf]
  rcases arc_cases (s - 1) with h | h | h | h | h | h | h | h | h | h | h | h | h <;>
    simp (disch := omega) only [if_pos, if_neg] <;>
    simp [minuteOf, minutes, SECONDS_PER_DAY] <;> omega

theorem spiralLoop_succ {K : Type} [Field K] (HALF_PI TWO_PI : K) (n : Nat) :
    spiralLoop HALF_PI TWO_PI (n + 1)
      = (spiralLoop HALF_PI TWO_PI n).bind fun st => spiralStep HALF_PI TWO_PI st (n : Int) := by
  unfold spiralLoop
  cases SpiralLoop.start K with
  | none => rfl
  | some st0 =>
    show List.foldlM _ st0 (List.range (n + 1)) = Option.bind (List.foldlM _ st0 (List.range n)) _
    rw [List.range_succ, List.foldlM_append]
    cases List.foldlM (fun st (s : Nat) => spiralStep HALF_PI TWO_PI st (s : Int)) st0
      (List.range n) with
    | none => rfl
    | some st => simp [List.foldlM]

theorem array_ext_getElem? {α : Type} (a b : Array α) (h : ∀ i : Nat, a[i]? = b[i]?) : a = b := by
  apply Array.ext'
  apply List.ext_getElem?
  intro i
  rw [← Array.getElem?_eq_getElem?_toList, ← Array.getElem?_eq_getElem?_toList]
  exact h i

theorem array_getElem?_setD {α : Type} (a : Array α) (i j : Nat) (v : α) :
    (a.setD i v)[j]? = if i = j ∧ j < a.size then some v else a[j]? := by
  by_cases h : i < a.size
  · by_cases hij : i = j
    · subst hij
      rw [Array.getElem?_setD_eq a h, if_pos ⟨rfl, h⟩]
    · have hne : ¬ (i = j ∧ j < a.size) := fun hc => hij hc.1
      rw [if_neg hne]
      simp only [Array.setD, h, dite_true]
      exact Array.getElem?_set_ne a ⟨i, h⟩ v hij
  · have hne : ¬ (i = j ∧ j < a.size) := fun hc => h (hc.1 ▸ hc.2)
    rw [if_neg hne]
    simp only [Array.setD, h, dite_false]

theorem tableOf_size {K : Type} [Field K] (HALF_PI TWO_PI : K) (size n : Nat) :
    (tableOf HALF_PI TWO_PI size n).size = size := by
  simp [tableOf]

theorem tableOf_getElem? {K : Type} [Field K] (HALF_PI TWO_PI : K) (size n i : Nat) :
    (tableOf HALF_PI TWO_PI size n)[i]?
      = if i < size then some (if i < n then some (pointOf HALF_PI TWO_PI i) else none)
        else none := by
  by_cases hi : i < size <;> simp [tableOf, Array.getElem?_ofFn, hi]

theorem tableOf_zero {K : Type} [Field K] (HALF_PI TWO_PI : K) (size : Nat) :
    mkArray size none = tableOf HALF_PI TWO_PI size 0 := by
  apply array_ext_getElem?
  intro i
  rw [tableOf_getElem?, Array.getElem?_mkArray]
  simp

theorem tableOf_setD {K : Type} [Field K] (HALF_PI TWO_PI : K) (size n : Nat) (p : Point K)
    (hp : p = pointOf HALF_PI TWO_PI n) :
    (tableOf HALF_PI TWO_PI size n).setD n (some p) = tableOf HALF_PI TWO_PI size (n + 1) := by
  apply array_ext_getElem?
  intro i
  rw [array_getElem?_setD, tableOf_getElem?, tableOf_getElem?, tableOf_size, hp]
  by_cases hi : i < size
  · by_cases hin : n = i
    · subst hin
      simp [hi]
    · have h1 : ¬ (n = i ∧ i < size) := fun hc => hin hc.1
      rw [if_neg h1, if_pos hi]
      by_cases h3 : i < n
      · simp [h3, Nat.lt_succ_of_lt h3, hi]
      · have h4 : ¬ i < n + 1 := by omega
        simp [h3, h4, hi]
  · have h1 : ¬ (n = i ∧ i < size) := fun hc => hi hc.2
    simp [h1, hi]

theorem toNat_SECONDS_PER_DAY : SECONDS_PER_DAY.toNat = 86400 := by decide

theorem spiralStep_advance {K : Type} [Field K] (HALF_PI TWO_PI : K)
    (minute0 index0 : Int) (sp0 : Array (Option (Point K)))
    (s bound minute : Int) (sp : Array (Option (Point K)))
    (hm : mulInt minute0 60 = some bound) (hgt : s > bound)
    (hr : readMinutes (index0 + 1) = some minute)
    (hw : writeSpiral sp0 s
      { radius := radiusOf K s, angle := thetaOf HALF_PI TWO_PI s,
        index := ((index0 + 1 : Int) : K) } = some sp) :
    spiralStep HALF_PI TWO_PI { minute := minute0, minute_index := index0, spiral := sp0 } s
      = some { minute := minute, minute_index := index0 + 1, spiral := sp } := by
  unfold spiralStep
  simp only [hm, if_pos hgt, hr, hw, Option.map_some']

theorem spiralStep_stay {K : Type} [Field K] (HALF_PI TWO_PI : K)
    (minute0 index0 : Int) (sp0 : Array (Option (Point K)))
    (s bound : Int) (sp : Array (Option (Point K)))
    (hm : mulInt minute0 60 = some bound) (hgt : ¬ s > bound)
    (hw : writeSpiral sp0 s
      { radius := radiusOf K s, angle := thetaOf HALF_PI TWO_PI s,
        index := (index0 : K) } = some sp) :
    spiralStep HALF_PI TWO_PI { minute := minute0, minute_index := index0, spiral := sp0 } s
      = some { minute := minute0, minute_index := index0, spiral := sp } := by
  unfold spiralStep
  simp only [hm, if_neg hgt, hw, Option.map_some']

theorem mulInt_of_bounds (a b : Int) (h : 0 ≤ a * b ∧ a * b ≤ 5184000) :
    mulInt a b = some (a * b) := by
  unfold mulInt INT_MIN INT_MAX
  rw [if_pos]
  omega

theorem writeSpiral_tableOf {K : Type} [Field K] (HALF_PI TWO_PI : K) (size n : Nat)
    (hn : n < size) (p : Point K) (hp : p = pointOf HALF_PI TWO_PI n) :
    writeSpiral (tableOf HALF_PI TWO_PI size n) (n : Int) p
      = some (tableOf HALF_PI TWO_PI size (n + 1)) := by
  unfold writeSpiral
  rw [if_pos (by rw [tableOf_size]; omega), Int.toNat_ofNat, tableOf_setD _ _ _ _ _ hp]

theorem spiralStep_loopStateOf {K : Type} [Field K] (HALF_PI TWO_PI : K) (n : Nat)
    (hn : n < 86400) :
    spiralStep HALF_PI TWO_PI (loopStateOf HALF_PI TWO_PI n) (n : Int)
      = some (loopStateOf HALF_PI TWO_PI (n + 1)) := by
  have hstep := arcOf_step (n : Int)
  have hmul := mulInt_of_bounds _ 60 (minuteOf_arcOf_bounds ((n : Int) - 1))
  have hsize : n < SECONDS_PER_DAY.toNat := by rw [toNat_SECONDS_PER_DAY]; exact hn
  have hsub : ((n + 1 : Nat) : Int) - 1 = (n : Int) := by push_cast; ring
  by_cases hgt : (n : Int) > minuteOf (arcOf ((n : Int) - 1)) * 60
  · have harc := hstep.1 hgt (by omega)
    have hcast : (arcOf ((n : Int) - 1) : Int) + 1 = (arcOf (n : Int) : Int) := by
      rw [harc]; push_cast; ring
    have hr : readMinutes ((arcOf ((n : Int) - 1) : Int) + 1) = some (minuteOf (arcOf (n : Int))) := by
      rw [hcast, readMinutes_arcOf]
    have hw := writeSpiral_tableOf HALF_PI TWO_PI SECONDS_PER_DAY.toNat n hsize
      { radius := radiusOf K n, angle := thetaOf HALF_PI TWO_PI n,
        index := (((arcOf ((n : Int) - 1) : Int) + 1 : Int) : K) }
      (by rw [hcast]; simp [pointOf])
    unfold loopStateOf
    rw [spiralStep_advance HALF_PI TWO_PI _ _ _ n _ _ _ hmul hgt hr hw, hsub, hcast]
  · have harc := hstep.2 hgt
    have hw := writeSpiral_tableOf HALF_PI TWO_PI SECONDS_PER_DAY.toNat n hsize
      { radius := radiusOf K n, angle := thetaOf HALF_PI TWO_PI n,
        index := ((arcOf ((n : Int) - 1) : Int) : K) }
      (by simp [pointOf, harc])
    unfold loopStateOf
    rw [spiralStep_stay HALF_PI TWO_PI _ _ _ n _ _ hmul hgt hw, hsub, harc]

theorem spiralLoop_eq {K : Type} [Field K] (HALF_PI TWO_PI : K) (n : Nat) (hn : n ≤ 86400) :
    spiralLoop HALF_PI TWO_PI n = some (loopStateOf HALF_PI TWO_PI n) := by
  induction n with
  | zero =>
    have h0 : readMinutes 0 = some 510 := by decide
    simp only [spiralLoop, SpiralLoop.start, h0, Option.map_some', Option.some_bind,
      List.range_zero, List.foldlM_nil, tableOf_zero HALF_PI TWO_PI]
    show some _ = some _
    simp [loopStateOf, arcOf, minuteOf, minutes]
  | succ k ih =>
    rw [spiralLoop_succ, ih (by omega)]
    exact spiralStep_loopStateOf HALF_PI TWO_PI k (by omega)

theorem spiralTable_eq {K : Type} [Field K] (HALF_PI TWO_PI : K) :
    spiralTable HALF_PI TWO_PI = some (tableOf HALF_PI TWO_PI 86400 86400) := by
  unfold spiralTable
  rw [toNat_SECONDS_PER_DAY, spiralLoop_eq HALF_PI TWO_PI 86400 (le_refl _), Option.map_some']
  simp only [loopStateOf, toNat_SECONDS_PER_DAY]

theorem spiralEntry_eq {K : Type} [Field K] (HALF_PI TWO_PI : K) (s : Nat) (hs : s < 86400) :
    spiralEntry HALF_PI TWO_PI s = some (pointOf HALF_PI TWO_PI s) := by
  unfold spiralEntry
  rw [spiralTable_eq, Option.some_bind, tableOf_getElem?, if_pos hs, if_pos hs]
  rfl

theorem spiralEntry_eq_none {K : Type} [Field K] (HALF_PI TWO_PI : K) (s : Nat)
    (hs : 86400 ≤ s) : spiralEntry HALF_PI TWO_PI s = none := by
  unfold spiralEntry
  rw [spiralTable_eq, Option.some_bind, tableOf_getElem?, if_neg (by omega)]
  rfl

/-! ## The fields of the table in closed form -/

theorem spiralIndex_eq {K : Type} [Field K] (HALF_PI TWO_PI : K) (s : Nat) (hs : s < 86400) :
    spiralIndex HALF_PI TWO_PI s = some ((arcOf (s : Int) : Nat) : K) := by
  unfold spiralIndex
  rw [spiralEntry_eq HALF_PI TWO_PI s hs]
  rfl

theorem spiralRadius_eq {K : Type} [Field K] (HALF_PI TWO_PI : K) (s : Nat) (hs : s < 86400) :
    spiralRadius HALF_PI TWO_PI s = some (radiusOf K (s : Int)) := by
  unfold spiralRadius
  rw [spiralEntry_eq HALF_PI TWO_PI s hs]
  rfl

theorem spiralAngle_eq {K : Type} [Field K] (HALF_PI TWO_PI : K) (s : Nat) (hs : s < 86400) :
    spiralAngle HALF_PI TWO_PI s = some (thetaOf HALF_PI TWO_PI (s : Int)) := by
  unfold spiralAngle
  rw [spiralEntry_eq HALF_PI TWO_PI s hs]
  rfl

theorem arcOf_change_iff (s : Int) :
    arcOf s ≠ arcOf (s - 1) ↔
      s = 30601 ∨ s = 34021 ∨ s = 34441 ∨ s = 37861 ∨ s = 38281 ∨ s = 41701 ∨ s = 42121
        ∨ s = 45661 ∨ s = 48541 ∨ s = 51961 ∨ s = 52381 ∨ s = 55801 := by
  have h1 := arcOf_cases s
  have h2 := arcOf_cases (s - 1)
  omega

theorem arcOf_mono_step (s : Int) : arcOf s ≤ arcOf (s + 1) ∧ arcOf (s + 1) ≤ arcOf s + 1 := by
  have h1 := arcOf_cases s
  have h2 := arcOf_cases (s + 1)
  omega

theorem arcOf_eq_twelve_iff (s : Int) : arcOf s = 12 ↔ 55801 ≤ s := by
  have h1 := arcOf_cases s
  omega

theorem some_natCast_inj {K : Type} [LinearOrderedField K] (a b : Nat) :
    (some (a : K) = some (b : K)) ↔ a = b := by
  rw [Option.some_inj, Nat.cast_inj]

theorem indexChanges_eq {K : Type} [LinearOrderedField K] (HALF_PI TWO_PI : K) :
    indexChanges HALF_PI TWO_PI
      = {30601, 34021, 34441, 37861, 38281, 41701, 42121, 45661, 48541, 51961, 52381, 55801} := by
  have htab : ∀ s : Nat, tableIndex (tableOf HALF_PI TWO_PI 86400 86400) s
      = spiralIndex HALF_PI TWO_PI s := by
    intro s
    unfold spiralIndex spiralEntry tableIndex
    rw [spiralTable_eq, Option.some_bind]
  unfold indexChanges
  rw [spiralTable_eq, Option.map_some', Option.getD_some]
  ext s
  simp only [htab, Finset.mem_filter, Finset.mem_range, toNat_SECONDS_PER_DAY,
    Finset.mem_insert, Finset.mem_singleton]
  have key : ∀ hs : s < 86400, 0 < s →
      (spiralIndex HALF_PI TWO_PI s ≠ spiralIndex HALF_PI TWO_PI (s - 1)
        ↔ arcOf (s : Int) ≠ arcOf ((s : Int) - 1)) := by
    intro hs hpos
    have hc : ((s - 1 : Nat) : Int) = (s : Int) - 1 := by omega
    rw [spiralIndex_eq HALF_PI TWO_PI s hs, spiralIndex_eq HALF_PI TWO_PI (s - 1) (by omega), hc,
      Ne, some_natCast_inj]
  constructor
  · rintro ⟨hs, hpos, hne⟩
    have h := (arcOf_change_iff (s : Int)).1 ((key hs hpos).1 hne)
    omega
  · intro h
    have hs : s < 86400 := by omega
    have hpos : 0 < s := by omega
    refine ⟨hs, hpos, (key hs hpos).2 ((arcOf_change_iff (s : Int)).2 ?_)⟩
    omega

/-! ## Claims about the index field -/

/-- C1, as stated, fails: on the table computed with the `float` values of pi/2 and 2 pi, the
index does not change at 13 positions, and it already holds its maximum 12 at `s = 55801`,
one second past the twelfth threshold `930 * 60`, not at the thirteenth entry of the list. -/
theorem index_changes_not_thirteen :
    ¬ ((indexChanges floatHalfPi floatTwoPi).card = 13)
      ∧ spiralIndex floatHalfPi floatTwoPi 55801 = some 12
      ∧ (55801 : Int) < SECONDS_PER_DAY * 60 := by
  refine ⟨?_, ?_, by decide⟩
  · rw [indexChanges_eq]
    decide
  · rw [spiralIndex_eq floatHalfPi floatTwoPi 55801 (by decide)]
    have h : arcOf ((55801 : Nat) : Int) = 12 := (arcOf_eq_twelve_iff _).2 (by decide)
    rw [h]
    rfl

/-- C1, amended: the index changes value (`index(s) ≠ index(s-1)`) at exactly 12 positions of the
table, the positions `m * 60 + 1` for the 12 entries `m` of the threshold list before the
sentinel `SECONDS_PER_DAY`; every index lies in `0 .. 12`, and the index holds its maximum 12
exactly from `s = 55801 = 930 * 60 + 1` on, one second past the last threshold before the
sentinel. -/
theorem index_changes_at_twelve_positions {K : Type} [LinearOrderedField K]
    (HALF_PI TWO_PI : K) :
    indexChanges HALF_PI TWO_PI = (minutes.dropLast.map fun m => (m * 60 + 1).toNat).toFinset
      ∧ (indexChanges HALF_PI TWO_PI).card = 12
      ∧ (∀ s : Nat, s < 86400 →
          ∃ k : Nat, k ≤ 12 ∧ spiralIndex HALF_PI TWO_PI s = some (k : K))
      ∧ (∀ s : Nat, s < 86400 →
          (spiralIndex HALF_PI TWO_PI s = some (12 : K) ↔ 55801 ≤ s)) := by
  refine ⟨?_, ?_, ?_, ?_⟩
  · rw [indexChanges_eq]
    decide
  · rw [indexChanges_eq]
    decide
  · intro s hs
    exact ⟨arcOf (s : Int), arcOf_le _, spiralIndex_eq HALF_PI TWO_PI s hs⟩
  · intro s hs
    have h12 : (12 : K) = ((12 : Nat) : K) := by norm_num
    rw [spiralIndex_eq HALF_PI TWO_PI s hs, h12, some_natCast_inj, arcOf_eq_twelve_iff]
    omega

/-- C2: the index field is non-decreasing over ascending `s`: `index(0) = 0`, and for every
`s` with `0 ≤ s < 86399`, `index(s) ≤ index(s+1) ≤ index(s) + 1`. -/
theorem index_nondecreasing {K : Type} [LinearOrderedField K] (HALF_PI TWO_PI : K) (s : Nat)
    (hs : s < 86399) :
    spiralIndex HALF_PI TWO_PI 0 = some (0 : K)
      ∧ ∃ a b : K, spiralIndex HALF_PI TWO_PI s = some a
          ∧ spiralIndex HALF_PI TWO_PI (s + 1) = some b ∧ a ≤ b ∧ b ≤ a + 1 := by
  constructor
  · rw [spiralIndex_eq HALF_PI TWO_PI 0 (by decide)]
    have h : arcOf ((0 : Nat) : Int) = 0 := by
      have h1 := arcOf_cases ((0 : Nat) : Int)
      omega
    rw [h]
    simp
  · refine ⟨_, _, spiralIndex_eq HALF_PI TWO_PI s (by omega),
      spiralIndex_eq HALF_PI TWO_PI (s + 1) (by omega), ?_, ?_⟩
    · have h := (arcOf_mono_step (s : Int)).1
      have hc : ((s + 1 : Nat) : Int) = (s : Int) + 1 := by omega
      rw [hc]
      exact_mod_cast h
    · have h := (arcOf_mono_step (s : Int)).2
      have hc : ((s + 1 : Nat) : Int) = (s : Int) + 1 := by omega
      rw [hc]
      exact_mod_cast h

/-- Witness of C2 at `s = 30600`, where the index steps from 0 to 1. -/
theorem index_nondecreasing_witness :
    spiralIndex (Real.pi / 2) (2 * Real.pi) 0 = some (0 : ℝ)
      ∧ ∃ a b : ℝ, spiralIndex (Real.pi / 2) (2 * Real.pi) 30600 = some a
          ∧ spiralIndex (Real.pi / 2) (2 * Real.pi) (30600 + 1) = some b ∧ a ≤ b ∧ b ≤ a + 1 :=
  index_nondecreasing (Real.pi / 2) (2 * Real.pi) 30600 (by decide)

/-- C9: for every `s` in `[0, 86400)` the index equals the number of the 12 non-sentinel
entries `m` of `minutes` with `s > m * 60`; that number is at most 12, and each value `k` of
`0 .. 12` is taken on a non-empty contiguous range `lo .. hi` of seconds of the day. -/
theorem index_is_segment_count {K : Type} [LinearOrderedField K] (HALF_PI TWO_PI : K)
    (s k : Nat) (hs : s < 86400) (hk : k ≤ 12) :
    spiralIndex HALF_PI TWO_PI s = some ((segmentCount (s : Int) : Nat) : K)
      ∧ segmentCount (s : Int) ≤ 12
      ∧ ∃ lo hi : Nat, lo ≤ hi ∧ hi < 86400 ∧ ∀ t : Nat, t < 86400 →
          (spiralIndex HALF_PI TWO_PI t = some (k : K) ↔ lo ≤ t ∧ t ≤ hi) := by
  refine ⟨?_, ?_, ?_⟩
  · rw [segmentCount_eq_arcOf]
    exact spiralIndex_eq HALF_PI TWO_PI s hs
  · rw [segmentCount_eq_arcOf]
    exact arcOf_le _
  · have key : ∀ lo hi : Nat, lo ≤ hi → hi < 86400 →
        (∀ t : Int, 0 ≤ t → t < 86400 → (arcOf t = k ↔ (lo : Int) ≤ t ∧ t ≤ (hi : Int))) →
        ∃ lo hi : Nat, lo ≤ hi ∧ hi < 86400 ∧ ∀ t : Nat, t < 86400 →
          (spiralIndex HALF_PI TWO_PI t = some (k : K) ↔ lo ≤ t ∧ t ≤ hi) := by
      intro lo hi h1 h2 h3
      refine ⟨lo, hi, h1, h2, ?_⟩
      intro t ht
      rw [spiralIndex_eq HALF_PI TWO_PI t ht, some_natCast_inj, h3 (t : Int) (by omega) (by omega)]
      omega
    interval_cases k
    · exact key 0 30600 (by decide) (by decide) (fun t _ _ => by have := arcOf_cases t; omega)
    · exact key 30601 34020 (by decide) (by decide) (fun t _ _ => by have := arcOf_cases t; omega)
    · exact key 34021 34440 (by decide) (by decide) (fun t _ _ => by have := arcOf_cases t; omega)
    · exact key 34441 37860 (by decide) (by decide) (fun t _ _ => by have := arcOf_cases t; omega)
    · exact key 37861 38280 (by decide) (by decide) (fun t _ _ => by have := arcOf_cases t; omega)
    · exact key 38281 41700 (by decide) (by decide) (fun t _ _ => by have := arcOf_cases t; omega)
    · exact key 41701 42120 (by decide) (by decide) (fun t _ _ => by have := arcOf_cases t; omega)
    · exact key 42121 45660 (by decide) (by decide) (fun t _ _ => by have := arcOf_cases t; omega)
    · exact key 45661 48540 (by decide) (by decide) (fun t _ _ => by have := arcOf_cases t; omega)
    · exact key 48541 51960 (by decide) (by decide) (fun t _ _ => by have := arcOf_cases t; omega)
    · exact key 51961 52380 (by decide) (by decide) (fun t _ _ => by have := arcOf_cases t; omega)
    · exact key 52381 55800 (by decide) (by decide) (fun t _ _ => by have := arcOf_cases t; omega)
    · exact key 55801 86399 (by decide) (by decide) (fun t _ _ => by have := arcOf_cases t; omega)

/-- Witness of C9 at `s = 40000` and `k = 5`. -/
theorem index_is_segment_count_witness :
    spiralIndex (Real.pi / 2) (2 * Real.pi) 40000 = some ((segmentCount ((40000 : Nat) : Int) : Nat) : ℝ)
      ∧ segmentCount ((40000 : Nat) : Int) ≤ 12
      ∧ ∃ lo hi : Nat, lo ≤ hi ∧ hi < 86400 ∧ ∀ t : Nat, t < 86400 →
          (spiralIndex (Real.pi / 2) (2 * Real.pi) t = some ((5 : Nat) : ℝ) ↔ lo ≤ t ∧ t ≤ hi) :=
  index_is_segment_count (Real.pi / 2) (2 * Real.pi) 40000 5 (by decide) (by decide)

/-- C10: after any number `n ≤ 86400` of iterations the loop of `init` has produced a state
(no read outside `minutes`, no product outside the `int` range on the way), in which
`minute_index` lies in `[0, 12]`, `minute` is the entry `minutes[minute_index]` of the
13-element array, and the product `minute * 60` is at most 5184000, inside the 32-bit range. -/
theorem loop_stays_in_bounds {K : Type} [Field K] (HALF_PI TWO_PI : K) (n : Nat)
    (hn : n ≤ 86400) :
    ∃ st : SpiralLoop K, spiralLoop HALF_PI TWO_PI n = some st
      ∧ 0 ≤ st.minute_index ∧ st.minute_index ≤ 12 ∧ minutes.length = 13
      ∧ readMinutes st.minute_index = some st.minute
      ∧ 0 ≤ st.minute * 60 ∧ st.minute * 60 ≤ 5184000 ∧ (5184000 : Int) ≤ INT_MAX
      ∧ mulInt st.minute 60 = some (st.minute * 60)
      ∧ (st.minute_index = 12 →
          st.minute = SECONDS_PER_DAY ∧ ∀ s : Int, s < SECONDS_PER_DAY → ¬ s > st.minute * 60) := by
  have hb := minuteOf_arcOf_bounds ((n : Int) - 1)
  have hle := arcOf_le ((n : Int) - 1)
  refine ⟨loopStateOf HALF_PI TWO_PI n, spiralLoop_eq HALF_PI TWO_PI n hn, ?_, ?_, by decide,
    ?_, ?_, ?_, by decide, ?_, ?_⟩
  · show (0 : Int) ≤ (arcOf ((n : Int) - 1) : Int)
    omega
  · show (arcOf ((n : Int) - 1) : Int) ≤ 12
    omega
  · exact readMinutes_arcOf _
  · exact hb.1
  · exact hb.2
  · exact mulInt_of_bounds _ 60 hb
  · intro h12
    have h : arcOf ((n : Int) - 1) = 12 := by
      have h' : (arcOf ((n : Int) - 1) : Int) = 12 := h12
      omega
    have hm : (loopStateOf HALF_PI TWO_PI n).minute = SECONDS_PER_DAY := by
      show minuteOf (arcOf ((n : Int) - 1)) = SECONDS_PER_DAY
      rw [h]
      simp [minuteOf, minutes]
    refine ⟨hm, ?_⟩
    intro s hlt
    rw [hm]
    unfold SECONDS_PER_DAY at hlt ⊢
    omega

/-- Witness of C10 for the whole loop, `n = 86400`. -/
theorem loop_stays_in_bounds_witness :
    ∃ st : SpiralLoop ℚ, spiralLoop floatHalfPi floatTwoPi 86400 = some st
      ∧ 0 ≤ st.minute_index ∧ st.minute_index ≤ 12 ∧ minutes.length = 13
      ∧ readMinutes st.minute_index = some st.minute
      ∧ 0 ≤ st.minute * 60 ∧ st.minute * 60 ≤ 5184000 ∧ (5184000 : Int) ≤ INT_MAX
      ∧ mulInt st.minute 60 = some (st.minute * 60)
      ∧ (st.minute_index = 12 →
          st.minute = SECONDS_PER_DAY ∧ ∀ s : Int, s < SECONDS_PER_DAY → ¬ s > st.minute * 60) :=
  loop_stays_in_bounds floatHalfPi floatTwoPi 86400 (by decide)

/-! ## Claims about the radius and the angle -/

theorem thickness_eq (K : Type) [LinearOrderedField K] : thickness K = 1 / 32 := by
  unfold thickness HOURS_PER_DAY
  norm_num

theorem radiusOf_natCast (K : Type) [Field K] (s : Nat) :
    radiusOf K (s : Int)
      = if s % 2 = 1 then (s : K) / 86400 + thickness K else (s : K) / 86400 := by
  have hmod : ((s : Int).tmod 2 ≠ 0) ↔ s % 2 = 1 := by
    have h : (s : Int).tmod 2 = ((s % 2 : Nat) : Int) := (Int.ofNat_tmod s 2).symm
    rw [h]
    omega
  unfold radiusOf SECONDS_PER_DAY
  by_cases h : s % 2 = 1
  · rw [if_pos (hmod.2 h), if_pos h]
    simp
  · rw [if_neg (fun hc => h (hmod.1 hc)), if_neg h]
    simp

/-- C3: for every `s` in `[0, 86400)`, over the rationals and with `thickness = 0.75/24`, the
radius stored for `s` lies in `[0, 1 + thickness]`; it is `s/86400` for even `s` and
`s/86400 + thickness` for odd `s`. -/
theorem radius_bounds_and_parity (HALF_PI TWO_PI : ℚ) (s : Nat) (hs : s < 86400) :
    thickness ℚ = (3 / 4) / 24
      ∧ ∃ r : ℚ, spiralRadius HALF_PI TWO_PI s = some r
          ∧ 0 ≤ r ∧ r ≤ 1 + thickness ℚ
          ∧ (s % 2 = 0 → r = (s : ℚ) / 86400)
          ∧ (s % 2 = 1 → r = (s : ℚ) / 86400 + thickness ℚ) := by
  have ht : thickness ℚ = 1 / 32 := thickness_eq ℚ
  have h0 : (0 : ℚ) ≤ (s : ℚ) / 86400 := by positivity
  have h1 : (s : ℚ) / 86400 ≤ 1 := by
    rw [div_le_one (by norm_num)]
    exact_mod_cast hs.le
  refine ⟨by rw [ht]; norm_num, radiusOf ℚ (s : Int), spiralRadius_eq HALF_PI TWO_PI s hs, ?_, ?_,
    ?_, ?_⟩
  · rw [radiusOf_natCast, ht]
    split_ifs <;> linarith
  · rw [radiusOf_natCast, ht]
    split_ifs <;> linarith
  · intro he
    rw [radiusOf_natCast, if_neg (by omega)]
  · intro ho
    rw [radiusOf_natCast, if_pos ho]

/-- Witness of C3 at the odd second `s = 86399`, the largest radius of the table. -/
theorem radius_bounds_and_parity_witness :
    thickness ℚ = (3 / 4) / 24
      ∧ ∃ r : ℚ, spiralRadius floatHalfPi floatTwoPi 86399 = some r
          ∧ 0 ≤ r ∧ r ≤ 1 + thickness ℚ
          ∧ (86399 % 2 = 0 → r = ((86399 : Nat) : ℚ) / 86400)
          ∧ (86399 % 2 = 1 → r = ((86399 : Nat) : ℚ) / 86400 + thickness ℚ) :=
  radius_bounds_and_parity floatHalfPi floatTwoPi 86399 (by decide)

/-- C4: over the reals, with `HALF_PI` = pi/2 and `TWO_PI` = 2 pi: the angle stored for
`s = 0` is pi/2; for every `s` in `[0, 86399)` the angle of `s + 1` is strictly below the
angle of `s`; and when `s + 3600 < 86400` the angle of `s + 3600` is the angle of `s` minus
2 pi, which has the same cosine and sine. -/
theorem angle_start_decrease_wrap (s : Nat) (hs : s < 86399) :
    spiralAngle (Real.pi / 2) (2 * Real.pi) 0 = some (Real.pi / 2)
      ∧ (∃ a b : ℝ, spiralAngle (Real.pi / 2) (2 * Real.pi) s = some a
          ∧ spiralAngle (Real.pi / 2) (2 * Real.pi) (s + 1) = some b ∧ b < a)
      ∧ (s + 3600 < 86400 →
          ∃ a c : ℝ, spiralAngle (Real.pi / 2) (2 * Real.pi) s = some a
            ∧ spiralAngle (Real.pi / 2) (2 * Real.pi) (s + 3600) = some c
            ∧ c = a - 2 * Real.pi ∧ Real.cos c = Real.cos a ∧ Real.sin c = Real.sin a) := by
  have hpi := Real.pi_pos
  refine ⟨?_, ?_, ?_⟩
  · rw [spiralAngle_eq _ _ 0 (by decide)]
    simp [thetaOf]
  · refine ⟨_, _, spiralAngle_eq _ _ s (by omega), spiralAngle_eq _ _ (s + 1) (by omega), ?_⟩
    unfold thetaOf SECONDS_PER_HOUR
    push_cast
    have h : (s : ℝ) * (2 * Real.pi) / 3600 < ((s : ℝ) + 1) * (2 * Real.pi) / 3600 := by
      apply div_lt_div_of_pos_right _ (by norm_num)
      nlinarith
    linarith
  · intro hw
    have hc : thetaOf (Real.pi / 2) (2 * Real.pi) ((s + 3600 : Nat) : Int)
        = thetaOf (Real.pi / 2) (2 * Real.pi) (s : Int) - 2 * Real.pi := by
      unfold thetaOf SECONDS_PER_HOUR
      push_cast
      ring
    refine ⟨_, _, spiralAngle_eq _ _ s (by omega), spiralAngle_eq _ _ (s + 3600) hw, hc, ?_, ?_⟩
    · rw [hc, Real.cos_sub_two_pi]
    · rw [hc, Real.sin_sub_two_pi]

/-- Witness of C4 at `s = 0`. -/
theorem angle_start_decrease_wrap_witness :
    spiralAngle (Real.pi / 2) (2 * Real.pi) 0 = some (Real.pi / 2)
      ∧ (∃ a b : ℝ, spiralAngle (Real.pi / 2) (2 * Real.pi) 0 = some a
          ∧ spiralAngle (Real.pi / 2) (2 * Real.pi) (0 + 1) = some b ∧ b < a)
      ∧ (0 + 3600 < 86400 →
          ∃ a c : ℝ, spiralAngle (Real.pi / 2) (2 * Real.pi) 0 = some a
            ∧ spiralAngle (Real.pi / 2) (2 * Real.pi) (0 + 3600) = some c
            ∧ c = a - 2 * Real.pi ∧ Real.cos c = Real.cos a ∧ Real.sin c = Real.sin a) :=
  angle_start_decrease_wrap 0 (by decide)

/-! ## Claims about the GL calls -/

theorem init_of_program_ne_zero {K : Type} [Field K] (HALF_PI TWO_PI : K) (gl : GLDriver)
    (r : RendererES3) (h : gl.program ≠ 0) :
    r.init HALF_PI TWO_PI gl
      = some (true,
          { mEglContext := r.mEglContext, mProgram := gl.program, mVB := gl.buffers,
            mVBState := gl.vertexArray },
          initCalls
            { mEglContext := r.mEglContext, mProgram := gl.program, mVB := gl.buffers,
              mVBState := gl.vertexArray }
            (tableOf HALF_PI TWO_PI 86400 86400)) := by
  unfold RendererES3.init
  rw [spiralTable_eq, if_neg h, Option.map_some']

theorem init_of_program_eq_zero {K : Type} [Field K] (HALF_PI TWO_PI : K) (gl : GLDriver)
    (r : RendererES3) (h : gl.program = 0) :
    r.init HALF_PI TWO_PI gl
      = some (false,
          { mEglContext := r.mEglContext, mProgram := gl.program, mVB := r.mVB,
            mVBState := r.mVBState },
          ([] : List (GLCall K))) := by
  unfold RendererES3.init
  rw [if_pos h]

theorem run_initCalls {K : Type} (g : GLBuffers) (r : RendererES3)
    (spiral : Array (Option (Point K))) :
    g.run (initCalls r spiral)
      = { arrayBuffer := r.mVB VB_OFFSET
          storeSize := fun b =>
            if b = r.mVB VB_OFFSET then sizeofFloat
            else if b = r.mVB VB_INSTANCE then SECONDS_PER_DAY.toNat * sizeofPoint
            else if b ∈ List.ofFn r.mVB then 0 else g.storeSize b } := by
  simp only [GLBuffers.run, initCalls, List.foldl, GLBuffers.apply]

/-- C5: for every `numInstances`, `draw` issues exactly three GL calls, in this order: use the
renderer's program, bind its vertex-array object, and one instanced triangle-strip draw from
vertex 0 with vertex count 86400 and instance count 1; the calls are the same for every other
argument. -/
theorem draw_calls (K : Type) (r : RendererES3) (numInstances : Nat) :
    r.draw K numInstances
        = [ .glUseProgram r.mProgram, .glBindVertexArray r.mVBState,
            .glDrawArraysInstanced .GL_TRIANGLE_STRIP 0 86400 1 ]
      ∧ SECONDS_PER_DAY = 86400
      ∧ ∀ other : Nat, r.draw K other = r.draw K numInstances :=
  ⟨rfl, rfl, fun _ => rfl⟩

/-- C6: for a renderer whose captured context is `captured`: when the current context equals
it, the destructor issues exactly three release calls, in this order: delete the vertex-array
object, delete the three buffer handles, delete the program; when the current context differs,
it issues no GL call. The constructor captures the context current at construction. -/
theorem destructor_calls (K : Type) (captured current : EGLContext) (r : RendererES3)
    (hr : r.mEglContext = captured) :
    (RendererES3.new captured).mEglContext = captured
      ∧ (current = captured →
          r.destroy K current
            = [ .glDeleteVertexArrays 1 [r.mVBState],
                .glDeleteBuffers 3 [r.mVB VB_INSTANCE, r.mVB VB_SCALEROT, r.mVB VB_OFFSET],
                .glDeleteProgram r.mProgram ])
      ∧ (current ≠ captured → r.destroy K current = []) := by
  refine ⟨rfl, ?_, ?_⟩
  · intro h
    unfold RendererES3.destroy
    rw [if_neg (by rw [hr]; exact not_not.2 h)]
    simp [List.ofFn_succ, VB_INSTANCE, VB_SCALEROT, VB_OFFSET]
  · intro h
    unfold RendererES3.destroy
    rw [if_pos (by rw [hr]; exact h)]

/-- Witness of C6 for the renderer constructed in context 7 and destroyed in context 7. -/
theorem destructor_calls_witness :
    (RendererES3.new 7).mEglContext = 7
      ∧ ((7 : EGLContext) = 7 →
          (RendererES3.new 7).destroy ℚ 7
            = [ .glDeleteVertexArrays 1 [(RendererES3.new 7).mVBState],
                .glDeleteBuffers 3 [(RendererES3.new 7).mVB VB_INSTANCE,
                  (RendererES3.new 7).mVB VB_SCALEROT, (RendererES3.new 7).mVB VB_OFFSET],
                .glDeleteProgram (RendererES3.new 7).mProgram ])
      ∧ ((7 : EGLContext) ≠ 7 → (RendererES3.new 7).destroy ℚ 7 = []) :=
  destructor_calls ℚ 7 7 (RendererES3.new 7) rfl

/-- C7, checked on the code: after a successful `init`, with the distinct buffer names that
`glGenBuffers` hands out, the offset buffer has a store of one float and the range mapped by
`mapOffsetBuf` lies within it, but the transform buffer `mVB[VB_SCALEROT]` has a store of 0
bytes, so the 16 bytes mapped by `mapTransformBuf` do not lie within it. -/
theorem transform_buffer_has_no_store {K : Type} [Field K] (HALF_PI TWO_PI : K)
    (gl : GLDriver) (g : GLBuffers) (r0 : RendererES3)
    (hprog : gl.program ≠ 0) (hinj : Function.Injective gl.buffers) :
    ∃ (r : RendererES3) (calls : List (GLCall K)),
      r0.init HALF_PI TWO_PI gl = some (true, r, calls)
      ∧ (g.run calls).storeSize (r.mVB VB_OFFSET) = sizeofFloat
      ∧ (g.run calls).mapsWithinStore (r.mapOffsetBuf K) = true
      ∧ (g.run calls).storeSize (r.mVB VB_SCALEROT) = 0
      ∧ (g.run calls).mapsWithinStore (r.mapTransformBuf K) = false := by
  have h10 : gl.buffers 1 ≠ gl.buffers 0 := hinj.ne (by decide)
  have h12 : gl.buffers 1 ≠ gl.buffers 2 := hinj.ne (by decide)
  refine ⟨_, _, init_of_program_ne_zero HALF_PI TWO_PI gl r0 hprog, ?_, ?_, ?_, ?_⟩
  · rw [run_initCalls]
    simp
  · rw [run_initCalls]
    simp [RendererES3.mapOffsetBuf, GLBuffers.mapsWithinStore, GLBuffers.mapWithinStore,
      GLBuffers.apply]
  · rw [run_initCalls]
    simp [h10, h12, VB_INSTANCE, VB_SCALEROT, VB_OFFSET]
  · rw [run_initCalls]
    simp [RendererES3.mapTransformBuf, GLBuffers.mapsWithinStore, GLBuffers.mapWithinStore,
      GLBuffers.apply, h10, h12, sizeofFloat, VB_INSTANCE, VB_SCALEROT, VB_OFFSET]

/-- The failing input of C7: program 1, buffer names 1, 2, 3, vertex array 1, in a context
where no buffer has storage yet. -/
theorem transform_buffer_has_no_store_witness :
    ∃ (r : RendererES3) (calls : List (GLCall ℚ)),
      (RendererES3.new 1).init floatHalfPi floatTwoPi
          { program := 1, buffers := ![1, 2, 3], vertexArray := 1 } = some (true, r, calls)
      ∧ (GLBuffers.empty.run calls).storeSize (r.mVB VB_OFFSET) = sizeofFloat
      ∧ (GLBuffers.empty.run calls).mapsWithinStore (r.mapOffsetBuf ℚ) = true
      ∧ (GLBuffers.empty.run calls).storeSize (r.mVB VB_SCALEROT) = 0
      ∧ (GLBuffers.empty.run calls).mapsWithinStore (r.mapTransformBuf ℚ) = false :=
  transform_buffer_has_no_store floatHalfPi floatTwoPi
    { program := 1, buffers := ![1, 2, 3], vertexArray := 1 } GLBuffers.empty (RendererES3.new 1)
    (by decide) (by decide)

/-- C8: on a freshly constructed renderer `init` returns a result, and it returns false exactly
when `createProgram` returned 0; in that case it issued no GL call and the three buffer handles
and the vertex-array handle are still 0. `createES3Renderer` returns `NULL` exactly when `init`
returned false, and the initialised renderer otherwise. -/
theorem init_fails_iff_no_program {K : Type} [Field K] (HALF_PI TWO_PI : K)
    (atNew atDelete : EGLContext) (gl : GLDriver) :
    ∃ (ok : Bool) (r : RendererES3) (calls : List (GLCall K)),
      (RendererES3.new atNew).init HALF_PI TWO_PI gl = some (ok, r, calls)
      ∧ (ok = false ↔ gl.program = 0)
      ∧ (ok = false → calls = [] ∧ r.mVBState = 0 ∧ ∀ i : Fin VB_COUNT, r.mVB i = 0)
      ∧ ∃ (res : Option RendererES3) (all : List (GLCall K)),
          createES3Renderer HALF_PI TWO_PI atNew atDelete gl = some (res, all)
          ∧ (res = none ↔ ok = false)
          ∧ (ok = true → res = some r) := by
  by_cases h : gl.program = 0
  · refine ⟨false, _, _, init_of_program_eq_zero HALF_PI TWO_PI gl _ h, by simp [h],
      fun _ => ⟨rfl, rfl, fun _ => rfl⟩, ?_⟩
    unfold createES3Renderer
    rw [init_of_program_eq_zero HALF_PI TWO_PI gl _ h]
    exact ⟨none, _, rfl, by simp, by simp⟩
  · refine ⟨true, _, _, init_of_program_ne_zero HALF_PI TWO_PI gl _ h, by simp [h],
      by simp, ?_⟩
    unfold createES3Renderer
    rw [init_of_program_ne_zero HALF_PI TWO_PI gl _ h]
    exact ⟨some _, _, rfl, by simp, fun _ => rfl⟩

end Spirosch
